import Mathlib

/- Shallow embedding of the connection-pool and retry subsystem of
   `src/data.js` (jorgeoliveirasantos/ssdl).

   Registry state is explicit: the `Map` of connections becomes an
   association list with unique keys, `setTimeout`/`clearTimeout` become
   a list of scheduled `Timer` tasks together with a fresh-id counter,
   `Date.now()` becomes the `now` field, and the asynchronous
   `db.close(cb)` is split into a close *request* (recorded in
   `pendingCloses` the instant it is issued) and a separate completion
   event (`closeCompleted`).  Database handles are opaque numeric ids
   drawn from `nextDb`.  `Logger.Log` is modelled as appending the log
   message to `logs`. -/

/-- A pool entry: the JS object `{ db, lastUsed, timeout, open }` built in
`ConnectionManager.getConnection` (data.js:88-95).  The Lean field
`openFlag` stands for the JS field `open`, which is a Lean keyword. -/
structure Conn where
  db : Nat
  lastUsed : Nat
  timeout : Nat
  openFlag : Bool
deriving DecidableEq, Repr

/-- A scheduled `setTimeout` task: its id and the instant it is due. -/
structure Timer where
  id : Nat
  due : Nat
deriving DecidableEq, Repr

/-- The mutable state touched by `ConnectionManager` (data.js:53-171). -/
structure St where
  connections : List (String × Conn)
  activeTimers : List Timer
  nextTimer : Nat
  nextDb : Nat
  now : Nat
  logs : List String
  pendingCloses : List String
deriving DecidableEq, Repr

/-- The state at module load: `ConnectionManager.connections = new Map()`. -/
def St.init : St := ⟨[], [], 0, 0, 0, [], []⟩

/-- `Map.get` on the connections list (keys are unique). -/
def lookupConn : List (String × Conn) → String → Option Conn
  | [], _ => none
  | (k', c') :: rest, k => if k' = k then some c' else lookupConn rest k

/-- `Map.set`: replace the entry if the key is present, else append. -/
def setConn : List (String × Conn) → String → Conn → List (String × Conn)
  | [], k, c => [(k, c)]
  | (k', c') :: rest, k, c =>
      if k' = k then (k, c) :: rest else (k', c') :: setConn rest k c

/-- `Map.delete`: remove the entry for the key.  On reachable states keys
are unique, so removing every occurrence is the same operation. -/
def delConn : List (String × Conn) → String → List (String × Conn)
  | [], _ => []
  | (k', c') :: rest, k =>
      if k' = k then delConn rest k else (k', c') :: delConn rest k

namespace Config

/-- `Config.database_folder` (data.js:31). -/
def database_folder : String := "K:/Data"

/-- `Config.database_version` (data.js:32). -/
def database_version : String := "0.0"

/-- `Config.connection.max_retries` (data.js:43). -/
def max_retries : Nat := 3

/-- `Config.connection.retry_delay` (data.js:44). -/
def retry_delay : Nat := 100

/-- `Config.connection.db_pool_timeout` (data.js:42). -/
def db_pool_timeout : Nat := 30000

end Config

/-- JS `a || b` on numbers; the only falsy number reachable here is `0`. -/
def jsOrNat (a b : Nat) : Nat := if a ≠ 0 then a else b

/-- `ConnectionManager.db_pool_timeout`, set at module load to
`Config.connection.db_pool_timeout || 30000` (data.js:702). -/
def dbPoolTimeout : Nat := jsOrNat Config.db_pool_timeout 30000

/-- The delay of the retry loop, `Config.connection.retry_delay || 100`
(data.js:304). -/
def retryDelay : Nat := jsOrNat Config.retry_delay 100

/-- `BaseState.Path` (data.js:179-185): `path.join(folder, version, ...base)`,
modelled with the posix separator and no normalisation (the segments used
by the repository are plain relative names). -/
def BaseState.Path (base : List String) : String :=
  base.foldl (fun acc s => acc ++ "/" ++ s)
    (Config.database_folder ++ "/" ++ Config.database_version)

/-- Head test on character lists: `isPrefLC p l` holds when `p` is an
initial segment of `l`.  Used to model the JS string predicates. -/
def isPrefLC : List Char → List Char → Bool
  | [], _ => true
  | _ :: _, [] => false
  | a :: as, b :: bs => a == b && isPrefLC as bs

/-- Substring test on character lists: some suffix of the subject starts
with the pattern. -/
def containsLC (pat : List Char) : List Char → Bool
  | [] => pat.isEmpty
  | c :: rest => isPrefLC pat (c :: rest) || containsLC pat rest

/-- JS `s.includes(pat)`. -/
def includesStr (s pat : String) : Bool := containsLC pat.data s.data

/-- JS `s.startsWith(pat)`, used to characterise resolved paths. -/
def startsWithStr (s pat : String) : Bool := isPrefLC pat.data s.data

/-- A JS value as it occurs in the classification expressions: a string
literal or the boolean result of `includes`. -/
inductive JSVal where
  | str (s : String)
  | bool (b : Bool)
deriving DecidableEq, Repr

/-- JS truthiness: a string is truthy when non-empty. -/
def truthy : JSVal → Bool
  | .str s => !(s == "")
  | .bool b => b

/-- JS `a || b`: the left operand when truthy, otherwise the right one. -/
def jsOr (a b : JSVal) : JSVal := if truthy a then a else b

/-- JS ToString coercion applied by `includes` to its argument. -/
def jsValToString : JSVal → String
  | .str s => s
  | .bool b => if b then "true" else "false"

/-- The argument of `err.message.includes(...)` at data.js:255-257, exactly
as parenthesised in the source:
`"SQLITE_MISUSE" || err.message.includes("closed") || err.message.includes("not open")`
(left associated). -/
def callbackMarkerExpr (msg : String) : JSVal :=
  jsOr (jsOr (.str "SQLITE_MISUSE") (.bool (includesStr msg "closed")))
    (.bool (includesStr msg "not open"))

/-- The transient-error test of the per-statement error callback
(data.js:255-257). -/
def callbackClassifier (msg : String) : Bool :=
  includesStr msg (jsValToString (callbackMarkerExpr msg))

/-- The transient-error test of the retry-loop catch (data.js:293-295):
`err.message.includes('SQLITE_MISUSE') || err.message.includes('closed') || err.message.includes('not open')`. -/
def retryClassifier (msg : String) : Bool :=
  includesStr msg "SQLITE_MISUSE" || includesStr msg "closed" ||
    includesStr msg "not open"

/-- The creation branch of `ConnectionManager.getConnection`
(data.js:77-103): construct the handle, register the open callback (which
only logs on failure — `openErr` is the outcome of the asynchronous open),
schedule the idle timer, register the close handler, insert the record
with `open: true`, and return the handle. -/
def createConnection (openErr : Option String) (st : St) (arq : String) :
    Option Nat × St :=
  let db := st.nextDb
  let logs' := match openErr with
    | some _ => st.logs ++ ["Failed to open database: " ++ arq ++ ". "]
    | none => st.logs
  let conn : Conn := ⟨db, st.now, st.nextTimer, true⟩
  (some db,
    { st with
      connections := setConn st.connections arq conn
      activeTimers := Timer.mk st.nextTimer (st.now + dbPoolTimeout) :: st.activeTimers
      nextTimer := st.nextTimer + 1
      nextDb := st.nextDb + 1
      logs := logs' })

/-- `ConnectionManager.getConnection` (data.js:63-104).  On a hit with an
open record: clear the idle timer, set `lastUsed` to now, schedule a new
idle timer, return the stored handle.  Otherwise take the creation
branch. -/
def getConnection (openErr : Option String) (st : St) (arq : String) :
    Option Nat × St :=
  match lookupConn st.connections arq with
  | some conn =>
      if conn.openFlag then
        (some conn.db,
          { st with
            connections := setConn st.connections arq
              { conn with lastUsed := st.now, timeout := st.nextTimer }
            activeTimers := Timer.mk st.nextTimer (st.now + dbPoolTimeout) ::
              st.activeTimers.filter (fun tm => tm.id != conn.timeout)
            nextTimer := st.nextTimer + 1 })
      else createConnection openErr st arq
  | none => createConnection openErr st arq

/-- `ConnectionManager.isConnectionOpen` (data.js:111-114):
`conn && conn.open === true`, as a boolean. -/
def isConnectionOpen (st : St) (arq : String) : Bool :=
  match lookupConn st.connections arq with
  | some conn => conn.openFlag
  | none => false

/-- `ConnectionManager.closeConnection` (data.js:121-135): when the key is
tracked, clear the idle timer, request the asynchronous close when the
record is open (recorded in `pendingCloses`; its completion is
`closeCompleted`), and delete the key at once; otherwise do nothing. -/
def closeConnection (st : St) (arq : String) : St :=
  match lookupConn st.connections arq with
  | some conn =>
      { st with
        activeTimers := st.activeTimers.filter (fun tm => tm.id != conn.timeout)
        pendingCloses :=
          if conn.openFlag then st.pendingCloses ++ [arq] else st.pendingCloses
        connections := delConn st.connections arq }
  | none => st

/-- Completion of an asynchronous `db.close`: on an error the callback at
data.js:126-131 only logs; on success the `close` event registered at
data.js:98-101 deletes the key from the map (normally already gone). -/
def closeCompleted (err : Option String) (arq : String) (st : St) : St :=
  match err with
  | some _ =>
      { st with logs := st.logs ++ ["Failed to close database: " ++ arq ++ ". "] }
  | none => { st with connections := delConn st.connections arq }

/-- `ConnectionManager.shutdown` (data.js:141-154): clear every tracked
record's timer, request an asynchronous close for the open ones, then
clear the whole map. -/
def shutdown (st : St) : St :=
  { st with
    activeTimers := st.activeTimers.filter
      (fun tm => !(st.connections.any (fun p => p.2.timeout == tm.id)))
    pendingCloses := st.pendingCloses ++
      (st.connections.filter (fun p => p.2.openFlag)).map (fun p => p.1)
    connections := [] }

/-- One row of `ConnectionManager.getStatus` (data.js:160-170); `lastUsed`
is kept as the raw timestamp rather than its ISO rendering. -/
structure StatusEntry where
  openFlag : Bool
  lastUsed : Nat
  age : Nat
deriving DecidableEq, Repr

/-- `ConnectionManager.getStatus` (data.js:160-170). -/
def getStatus (st : St) : List (String × StatusEntry) :=
  st.connections.map (fun p => (p.1, ⟨p.2.openFlag, p.2.lastUsed, st.now - p.2.lastUsed⟩))

/-- JS property access `x.changes` where `x` is the *number*
`this.changes`: a number has no `changes` property, so the access yields
`undefined`. -/
def numChangesProp (_n : Nat) : Option Nat := none

/-- The value resolved for method `"run"` at data.js:264:
`resolve(result ? result.changes || 0 : 0)`, where `result` is the number
`this.changes` passed at data.js:277; `undefined || 0` is `0`. -/
def runResolved (changes : Nat) : Nat :=
  if changes ≠ 0 then (numChangesProp changes).getD 0 else 0

/-- The outcome of one `executeCall` statement execution against the
engine: the value the inner promise would resolve, or the message of the
error passed to the statement callback. -/
inductive Attempt where
  | success (v : Nat)
  | failure (msg : String)
deriving DecidableEq, Repr

/-- One `executeCall` (data.js:241-284): acquire the handle for the
resolved path, throw if it were falsy (data.js:246-248), then run the
statement; on an engine error the statement callback first applies the
(collapsed) marker test and, when it matches, evicts the *bare* name and
logs, before rejecting with the error. -/
def execAttempt (arq : String) (a : Attempt) (st : St) :
    Except String Nat × St :=
  let res := getConnection none st (BaseState.Path [arq])
  match res.1 with
  | none =>
      (.error ("Failed to obtain database connection for file: " ++ arq), res.2)
  | some _ =>
      match a with
      | .success v => (.ok v, res.2)
      | .failure msg =>
          if callbackClassifier msg then
            let st2 := closeConnection res.2 arq
            (.error msg,
              { st2 with
                logs := st2.logs ++
                  ["Database connection was not open on file: " ++ arq] })
          else (.error msg, res.2)

/-- The observable outcome of `Data.Execute`: a resolved value, a
rethrown non-transient error, the terminal budget-exhaustion error, or
the `undefined` returned when the loop is entered with no budget. -/
inductive ExecOutcome where
  | ok (v : Nat)
  | err (msg : String)
  | exhausted (msg : String)
  | noResult
deriving DecidableEq, Repr

/-- The message of the terminal error thrown at data.js:301 (the retry
count in the text is hardcoded to 3). -/
def terminalMsg (msg : String) : String :=
  "Database connection failed after 3 retries: " ++ msg

/-- The `await new Promise(res => setTimeout(res, retry_delay))` wait at
data.js:304: time advances by the retry delay. -/
def stepDelay (st : St) : St := { st with now := st.now + retryDelay }

/-- The retry loop of `Data.Execute` (data.js:286-310).  Arguments: the
remaining budget (`retries`), the index of the next attempt, and the
state; result: the outcome, the final state, and the number of attempts
made.  On a failure the budget is decremented; a marker match evicts the
resolved path and either throws the terminal error (budget exhausted) or
waits and retries; a non-matching failure is rethrown at once. -/
def retryLoop (arq : String) (attempts : Nat → Attempt) :
    Nat → Nat → St → ExecOutcome × St × Nat
  | 0, i, st => (.noResult, st, i)
  | r + 1, i, st =>
      let res := execAttempt arq (attempts i) st
      match res.1 with
      | .ok v => (.ok v, res.2, i + 1)
      | .error msg =>
          if retryClassifier msg then
            let st2 := closeConnection res.2 (BaseState.Path [arq])
            if r = 0 then (.exhausted (terminalMsg msg), st2, i + 1)
            else retryLoop arq attempts r (i + 1) (stepDelay st2)
          else (.err msg, res.2, i + 1)

/-- `Data.Execute` for method `"run"` (i.e. `Data.Write`): the retry loop
started with budget `Config.connection.max_retries || 3` (data.js:286). -/
def ExecuteRun (arq : String) (attempts : Nat → Attempt) (st : St) :
    ExecOutcome × St × Nat :=
  retryLoop arq attempts (jsOrNat Config.max_retries 3) 0 st

/-- The handle-acquisition step of `executeCall` together with its falsy
guard (data.js:245-248). -/
def acquireStep (e : Option String) (st : St) (arq : String) :
    Except String (Nat × St) :=
  let res := getConnection e st (BaseState.Path [arq])
  match res.1 with
  | some db => .ok (db, res.2)
  | none => .error ("Failed to obtain database connection for file: " ++ arq)

/-- Registry-mutating events: an acquire (with the outcome of the
asynchronous open), an explicit or timer-driven eviction, a close
completion, and process shutdown. -/
inductive Cmd where
  | getConn (openErr : Option String) (arq : String)
  | closeConn (arq : String)
  | closeDone (err : Option String) (arq : String)
  | shutdownCmd
deriving DecidableEq, Repr

/-- Whether a command is an acquire of the given id. -/
def acquiresId (arq : String) : Cmd → Bool
  | .getConn _ a => a == arq
  | _ => false

/-- Apply one registry event. -/
def stepCmd (st : St) : Cmd → St
  | .getConn e arq => (getConnection e st arq).2
  | .closeConn arq => closeConnection st arq
  | .closeDone e arq => closeCompleted e arq st
  | .shutdownCmd => shutdown st

/-- Run a sequence of registry events from the load-time state. -/
def runCmds (cmds : List Cmd) : St := cmds.foldl stepCmd St.init

/-- A concrete registry state used to instantiate the theorems: one open
record, keyed by the resolved path of `a.db`, with an active idle timer. -/
def stW : St :=
  ⟨[("K:/Data/0.0/a.db", ⟨0, 0, 7, true⟩)], [⟨7, 30000⟩], 8, 1, 5, [], []⟩

/- ------------------------------------------------------------------ -/
/- Helper lemmas on the association-list registry.                     -/
/- ------------------------------------------------------------------ -/

theorem lookup_set_self (l : List (String × Conn)) (k : String) (c : Conn) :
    lookupConn (setConn l k c) k = some c := by
  induction l with
  | nil => simp [setConn, lookupConn]
  | cons p rest ih =>
      by_cases h : p.1 = k
      · simp [setConn, lookupConn, h]
      · simp [setConn, lookupConn, h, ih]

theorem lookup_set_ne (l : List (String × Conn)) (k q : String) (c : Conn)
    (h : q ≠ k) : lookupConn (setConn l k c) q = lookupConn l q := by
  have hkq : ¬ k = q := fun hk => h hk.symm
  induction l with
  | nil => simp [setConn, lookupConn, hkq]
  | cons p rest ih =>
      by_cases hk : p.1 = k
      · have : ¬ k = q := fun hq => h hq.symm
        simp [setConn, lookupConn, hk, this]
      · simp only [setConn, hk, if_false, lookupConn]
        by_cases hq : p.1 = q
        · simp [hq]
        · simp [hq, ih]

theorem lookup_del_self (l : List (String × Conn)) (k : String) :
    lookupConn (delConn l k) k = none := by
  induction l with
  | nil => simp [delConn, lookupConn]
  | cons p rest ih =>
      by_cases h : p.1 = k
      · simp [delConn, h, ih]
      · simp [delConn, lookupConn, h, ih]

theorem del_absent (l : List (String × Conn)) (k q : String)
    (h : lookupConn l q = none) : lookupConn (delConn l k) q = none := by
  induction l with
  | nil => simp [delConn, lookupConn]
  | cons p rest ih =>
      by_cases hq : p.1 = q
      · simp [lookupConn, hq] at h
      · simp only [lookupConn, hq, if_false] at h
        by_cases hk : p.1 = k
        · simp [delConn, hk, ih h]
        · simp [delConn, lookupConn, hk, hq, ih h]

theorem lookup_absent_of_keys (l : List (String × Conn)) (k : String)
    (h : ∀ p ∈ l, p.1 ≠ k) : lookupConn l k = none := by
  induction l with
  | nil => simp [lookupConn]
  | cons p rest ih =>
      have hp : p.1 ≠ k := h p (List.mem_cons_self p rest)
      simp only [lookupConn, hp, if_false]
      exact ih (fun q hq => h q (List.mem_cons_of_mem p hq))

theorem keys_absent_of_lookup (l : List (String × Conn)) (k : String)
    (h : lookupConn l k = none) : ∀ p ∈ l, p.1 ≠ k := by
  induction l with
  | nil => intro p hp; simp at hp
  | cons p rest ih =>
      intro q hq
      by_cases hp : p.1 = k
      · simp [lookupConn, hp] at h
      · simp only [lookupConn, hp, if_false] at h
        rcases List.mem_cons.mp hq with hq | hq
        · rw [hq]; exact hp
        · exact ih h q hq

theorem mem_setConn (l : List (String × Conn)) (k : String) (c : Conn)
    (p : String × Conn) (h : p ∈ setConn l k c) : p = (k, c) ∨ p ∈ l := by
  induction l with
  | nil => simp [setConn] at h; simp [h]
  | cons q rest ih =>
      by_cases hk : q.1 = k
      · simp only [setConn, hk, if_true] at h
        rcases List.mem_cons.mp h with h | h
        · exact Or.inl h
        · exact Or.inr (List.mem_cons_of_mem q h)
      · simp only [setConn, hk, if_false] at h
        rcases List.mem_cons.mp h with h | h
        · exact Or.inr (by rw [h]; exact List.mem_cons_self q rest)
        · rcases ih h with h | h
          · exact Or.inl h
          · exact Or.inr (List.mem_cons_of_mem q h)

/- ------------------------------------------------------------------ -/
/- Helper lemmas on the connection operations.                         -/
/- ------------------------------------------------------------------ -/

theorem getConnection_fst (e : Option String) (st : St) (k : String) :
    ∃ d, (getConnection e st k).1 = some d := by
  unfold getConnection createConnection
  cases h : lookupConn st.connections k with
  | none => exact ⟨st.nextDb, rfl⟩
  | some conn =>
      by_cases ho : conn.openFlag
      · exact ⟨conn.db, by simp [ho]⟩
      · exact ⟨st.nextDb, by simp [ho]⟩

theorem getConnection_lookup (e : Option String) (st : St) (k : String) :
    ∃ c, lookupConn ((getConnection e st k).2).connections k = some c ∧
      c.openFlag = true := by
  unfold getConnection createConnection
  cases h : lookupConn st.connections k with
  | none => exact ⟨_, lookup_set_self .., rfl⟩
  | some conn =>
      by_cases ho : conn.openFlag
      · simp only [ho, if_true]
        exact ⟨_, lookup_set_self .., rfl⟩
      · simp only [ho, if_false]
        exact ⟨_, lookup_set_self .., rfl⟩

theorem lookup_getConnection_ne (e : Option String) (st : St) (k q : String)
    (h : q ≠ k) :
    lookupConn ((getConnection e st k).2).connections q =
      lookupConn st.connections q := by
  unfold getConnection createConnection
  cases hl : lookupConn st.connections k with
  | none => exact lookup_set_ne _ _ _ _ h
  | some conn =>
      by_cases ho : conn.openFlag
      · simp only [ho, if_true]
        exact lookup_set_ne _ _ _ _ h
      · simp only [ho, if_false]
        exact lookup_set_ne _ _ _ _ h

theorem getConnection_keys (e : Option String) (st : St) (k : String)
    (p : String × Conn) (hp : p ∈ ((getConnection e st k).2).connections) :
    p.1 = k ∨ p ∈ st.connections := by
  unfold getConnection createConnection at hp
  cases hl : lookupConn st.connections k with
  | none =>
      rw [hl] at hp
      rcases mem_setConn _ _ _ _ hp with h | h
      · exact Or.inl (by rw [h])
      · exact Or.inr h
  | some conn =>
      rw [hl] at hp
      by_cases ho : conn.openFlag
      · simp only [ho, if_true] at hp
        rcases mem_setConn _ _ _ _ hp with h | h
        · exact Or.inl (by rw [h])
        · exact Or.inr h
      · simp only [ho, if_false] at hp
        rcases mem_setConn _ _ _ _ hp with h | h
        · exact Or.inl (by rw [h])
        · exact Or.inr h

theorem closeConnection_not_found (st : St) (k : String)
    (h : lookupConn st.connections k = none) : closeConnection st k = st := by
  unfold closeConnection
  rw [h]

theorem lookup_closeConnection_self (st : St) (k : String) :
    lookupConn (closeConnection st k).connections k = none := by
  unfold closeConnection
  cases h : lookupConn st.connections k with
  | none => exact h
  | some conn => exact lookup_del_self ..

theorem closeConnection_absent (st : St) (k q : String)
    (h : lookupConn st.connections q = none) :
    lookupConn (closeConnection st k).connections q = none := by
  unfold closeConnection
  cases hl : lookupConn st.connections k with
  | none => exact h
  | some conn => exact del_absent _ _ _ h

theorem closeCompleted_absent (e : Option String) (st : St) (k q : String)
    (h : lookupConn st.connections q = none) :
    lookupConn (closeCompleted e k st).connections q = none := by
  unfold closeCompleted
  cases e with
  | none => exact del_absent _ _ _ h
  | some _ => exact h

/- ------------------------------------------------------------------ -/
/- Helper lemmas on the classifiers and the execution path.            -/
/- ------------------------------------------------------------------ -/

theorem callbackClassifier_eq (msg : String) :
    callbackClassifier msg = includesStr msg "SQLITE_MISUSE" := rfl

theorem callbackClassifier_of_retry_false (msg : String)
    (h : retryClassifier msg = false) : callbackClassifier msg = false := by
  rw [callbackClassifier_eq]
  unfold retryClassifier at h
  rcases Bool.or_eq_false_iff.mp h with ⟨h1, _⟩
  rcases Bool.or_eq_false_iff.mp h1 with ⟨h2, _⟩
  exact h2

theorem execAttempt_fst_success (arq : String) (v : Nat) (st : St) :
    (execAttempt arq (.success v) st).1 = .ok v := by
  obtain ⟨d, hd⟩ := getConnection_fst none st (BaseState.Path [arq])
  simp [execAttempt, hd]

theorem execAttempt_snd_success (arq : String) (v : Nat) (st : St) :
    (execAttempt arq (.success v) st).2 =
      (getConnection none st (BaseState.Path [arq])).2 := by
  obtain ⟨d, hd⟩ := getConnection_fst none st (BaseState.Path [arq])
  simp [execAttempt, hd]

theorem execAttempt_fst_failure (arq msg : String) (st : St) :
    (execAttempt arq (.failure msg) st).1 = .error msg := by
  obtain ⟨d, hd⟩ := getConnection_fst none st (BaseState.Path [arq])
  by_cases hc : callbackClassifier msg
  · simp [execAttempt, hd, hc]
  · simp [execAttempt, hd, hc]

theorem execAttempt_snd_failure_clean (arq msg : String) (st : St)
    (hc : callbackClassifier msg = false) :
    (execAttempt arq (.failure msg) st).2 =
      (getConnection none st (BaseState.Path [arq])).2 := by
  obtain ⟨d, hd⟩ := getConnection_fst none st (BaseState.Path [arq])
  simp [execAttempt, hd, hc]

theorem execAttempt_snd_failure_marked (arq msg : String) (st : St)
    (hc : callbackClassifier msg = true) :
    (execAttempt arq (.failure msg) st).2 =
      { closeConnection (getConnection none st (BaseState.Path [arq])).2 arq with
        logs := (closeConnection (getConnection none st (BaseState.Path [arq])).2 arq).logs ++
          ["Database connection was not open on file: " ++ arq] } := by
  obtain ⟨d, hd⟩ := getConnection_fst none st (BaseState.Path [arq])
  simp [execAttempt, hd, hc]

theorem retryLoop_fail_step (arq : String) (attempts : Nat → Attempt)
    (r i : Nat) (st : St) (msg : String)
    (h : attempts i = .failure msg) (ht : retryClassifier msg = true)
    (hr : r ≠ 0) :
    retryLoop arq attempts (r + 1) i st =
      retryLoop arq attempts r (i + 1)
        (stepDelay (closeConnection (execAttempt arq (attempts i) st).2
          (BaseState.Path [arq]))) := by
  conv_lhs => rw [retryLoop]
  rw [h]
  simp only [execAttempt_fst_failure, ht, if_true, hr, if_false, h]

theorem retryLoop_fail_exhaust (arq : String) (attempts : Nat → Attempt)
    (i : Nat) (st : St) (msg : String)
    (h : attempts i = .failure msg) (ht : retryClassifier msg = true) :
    retryLoop arq attempts 1 i st =
      (.exhausted (terminalMsg msg),
        closeConnection (execAttempt arq (attempts i) st).2 (BaseState.Path [arq]),
        i + 1) := by
  conv_lhs => rw [show (1 : Nat) = 0 + 1 from rfl, retryLoop]
  rw [h]
  simp only [execAttempt_fst_failure, ht, if_true, h]

theorem retryLoop_fail_stop (arq : String) (attempts : Nat → Attempt)
    (r i : Nat) (st : St) (msg : String)
    (h : attempts i = .failure msg) (ht : retryClassifier msg = false) :
    retryLoop arq attempts (r + 1) i st =
      (.err msg, (execAttempt arq (attempts i) st).2, i + 1) := by
  conv_lhs => rw [retryLoop]
  rw [h]
  simp only [execAttempt_fst_failure, ht, if_false, Bool.false_eq_true, h]

theorem retryLoop_success (arq : String) (attempts : Nat → Attempt)
    (r i : Nat) (st : St) (v : Nat)
    (h : attempts i = .success v) :
    retryLoop arq attempts (r + 1) i st =
      (.ok v, (execAttempt arq (attempts i) st).2, i + 1) := by
  conv_lhs => rw [retryLoop]
  rw [h]
  simp only [execAttempt_fst_success, h]

/- ------------------------------------------------------------------ -/
/- Remaining helper lemmas.                                            -/
/- ------------------------------------------------------------------ -/

theorem stepCmd_absent (st : St) (c : Cmd) (arq : String)
    (hc : acquiresId arq c = false)
    (h : lookupConn st.connections arq = none) :
    lookupConn (stepCmd st c).connections arq = none := by
  cases c with
  | getConn e a =>
      have hne : a ≠ arq := by simpa [acquiresId] using hc
      have harq : arq ≠ a := fun hh => hne hh.symm
      rw [show stepCmd st (Cmd.getConn e a) = (getConnection e st a).2 from rfl,
        lookup_getConnection_ne e st a arq harq]
      exact h
  | closeConn a => exact closeConnection_absent st a arq h
  | closeDone e a => exact closeCompleted_absent e st a arq h
  | shutdownCmd => rfl

theorem foldl_absent (cmds : List Cmd) (arq : String) :
    ∀ st, (∀ c ∈ cmds, acquiresId arq c = false) →
      lookupConn st.connections arq = none →
      lookupConn (cmds.foldl stepCmd st).connections arq = none := by
  induction cmds with
  | nil => intro st _ hst; simpa using hst
  | cons c rest ih =>
      intro st h hst
      simp only [List.foldl_cons]
      exact ih _ (fun d hd => h d (List.mem_cons_of_mem c hd))
        (stepCmd_absent st c arq (h c (List.mem_cons_self c rest)) hst)

theorem isPrefLC_append_self (p s : List Char) : isPrefLC p (p ++ s) = true := by
  induction p with
  | nil => rfl
  | cons a as ih => simp [isPrefLC, ih]

theorem path_startsWith (arq : String) :
    startsWithStr (BaseState.Path [arq]) "K:/Data/0.0/" = true := by
  show isPrefLC ("K:/Data/0.0/".data) ((BaseState.Path [arq]).data) = true
  have h1 : (BaseState.Path [arq]).data =
      (Config.database_folder ++ "/" ++ Config.database_version ++ "/").data ++ arq.data := rfl
  have h2 : (Config.database_folder ++ "/" ++ Config.database_version ++ "/").data =
      ("K:/Data/0.0/").data := by decide
  rw [h1, h2]
  exact isPrefLC_append_self _ _

theorem execAttempt_connections_marked (arq msg : String) (st : St)
    (hcb : callbackClassifier msg = true) :
    (execAttempt arq (.failure msg) st).2.connections =
      (closeConnection (getConnection none st (BaseState.Path [arq])).2 arq).connections := by
  rw [execAttempt_snd_failure_marked arq msg st hcb]

/- ------------------------------------------------------------------ -/
/- Claim theorems.                                                     -/
/- ------------------------------------------------------------------ -/

/-- C1: the code resolves the value
`resolve(result ? result.changes || 0 : 0)` where `result` is the number
`this.changes`, so every successful write-mode call (`Data.Write`, i.e.
`Execute` with method `"run"`) resolves `0` regardless of the number of
affected rows — contradicting the claim (and the code's own JSDoc
`@returns {Promise<number>} Number of affected rows`) whenever the
statement affected at least one row. -/
theorem write_run_resolves_zero (n : Nat) (st : St) (arq : String) :
    runResolved n = 0 ∧
    (ExecuteRun arq (fun _ => .success (runResolved n)) st).1 = .ok 0 := by
  have h0 : runResolved n = 0 := by
    unfold runResolved numChangesProp
    split <;> rfl
  refine ⟨h0, ?_⟩
  unfold ExecuteRun
  have e : retryLoop arq (fun _ => Attempt.success (runResolved n))
      (jsOrNat Config.max_retries 3) 0 st =
      (.ok (runResolved n),
        (execAttempt arq ((fun _ => Attempt.success (runResolved n)) 0) st).2, 1) :=
    retryLoop_success arq _ 2 0 st (runResolved n) rfl
  rw [e, h0]

/-- C2 counterexample: at the retry-loop catch the marker `"closed"` is
not inert — the message `"handle closed"` is classified as transient
there although it does not contain the first marker, and the same message
is rejected by the per-statement callback classifier.  Hence the claim
that both classification sites reduce to the first marker is false. -/
theorem classifier_sites_counter :
    retryClassifier "handle closed" = true ∧
    includesStr "handle closed" "SQLITE_MISUSE" = false ∧
    callbackClassifier "handle closed" = false := by decide

/-- C2 (amended): the per-statement error callback's classification
(data.js:255-257) collapses, by the misplaced parenthesis, to a check of
the first marker `"SQLITE_MISUSE"` alone, its other two markers being
inert; the retry-loop classification (data.js:293-295) is a genuine
three-way disjunction in which the `"closed"` and `"not open"` markers
are effective. -/
theorem classifier_sites_spec :
    (∀ msg, callbackClassifier msg = includesStr msg "SQLITE_MISUSE")
    ∧ (∀ msg, includesStr msg "closed" = true → retryClassifier msg = true)
    ∧ (∀ msg, includesStr msg "not open" = true → retryClassifier msg = true) := by
  refine ⟨fun msg => rfl, fun msg h => ?_, fun msg h => ?_⟩
  · unfold retryClassifier
    rw [h]
    simp
  · unfold retryClassifier
    rw [h]
    simp

/-- Witness for C2's theorem at concrete messages. -/
theorem classifier_sites_spec_witness :
    retryClassifier "connection closed" = true ∧
    retryClassifier "db not open" = true ∧
    callbackClassifier "abc" = includesStr "abc" "SQLITE_MISUSE" :=
  ⟨classifier_sites_spec.2.1 "connection closed" (by decide),
    classifier_sites_spec.2.2 "db not open" (by decide),
    classifier_sites_spec.1 "abc"⟩

/-- C3 counterexample: with the default budget 3 and a session-invalidity
message on every attempt, the third marker-matching failure is *not*
followed by a delay and a retry — the loop stops after exactly 3 attempts
and throws the terminal error.  So not every marker-matching failure is
retried. -/
theorem third_transient_failure_not_retried :
    (retryLoop "a.db" (fun _ => Attempt.failure "SQLITE_MISUSE") 3 0 St.init).1 =
      ExecOutcome.exhausted (terminalMsg "SQLITE_MISUSE")
    ∧ (retryLoop "a.db" (fun _ => Attempt.failure "SQLITE_MISUSE") 3 0 St.init).2.2 = 3 :=
  ⟨rfl, rfl⟩

/-- C3 (amended): at the retry boundary, a failure whose message matches
one of the three markers is transient: the resolved path is force-evicted
from the registry and the budget is decremented; if the decremented
budget is still positive a fixed delay (default 100ms) is awaited and the
operation is retried, while if the decrement exhausts the budget the
terminal error is thrown instead (still after the eviction).  A failure
matching none of the markers propagates immediately: no retry, no
eviction by the catch, and the handle is left open in the registry. -/
theorem retry_boundary_spec (arq : String) (attempts : Nat → Attempt)
    (r i : Nat) (st : St) (msg : String)
    (hatt : attempts i = .failure msg) :
    (retryClassifier msg = true → 1 ≤ r →
      retryLoop arq attempts (r + 1) i st =
        retryLoop arq attempts r (i + 1)
          (stepDelay (closeConnection (execAttempt arq (attempts i) st).2
            (BaseState.Path [arq])))
      ∧ lookupConn (closeConnection (execAttempt arq (attempts i) st).2
          (BaseState.Path [arq])).connections (BaseState.Path [arq]) = none
      ∧ retryDelay = 100)
    ∧ (retryClassifier msg = true → r = 0 →
      retryLoop arq attempts (r + 1) i st =
        (.exhausted (terminalMsg msg),
          closeConnection (execAttempt arq (attempts i) st).2 (BaseState.Path [arq]),
          i + 1))
    ∧ (retryClassifier msg = false →
      retryLoop arq attempts (r + 1) i st =
        (.err msg, (execAttempt arq (attempts i) st).2, i + 1)
      ∧ isConnectionOpen (execAttempt arq (attempts i) st).2
          (BaseState.Path [arq]) = true) := by
  refine ⟨fun ht hr =>
      ⟨retryLoop_fail_step arq attempts r i st msg hatt ht (by omega),
        lookup_closeConnection_self .., rfl⟩,
    fun ht hr => ?_,
    fun ht => ⟨retryLoop_fail_stop arq attempts r i st msg hatt ht, ?_⟩⟩
  · subst hr
    exact retryLoop_fail_exhaust arq attempts i st msg hatt ht
  · rw [hatt,
      execAttempt_snd_failure_clean arq msg st (callbackClassifier_of_retry_false msg ht)]
    obtain ⟨c, hc, hoc⟩ := getConnection_lookup none st (BaseState.Path [arq])
    simp [isConnectionOpen, hc, hoc]

/-- Witness for C3's theorem: a transient step with budget left, and a
non-transient failure leaving the handle open. -/
theorem retry_boundary_spec_witness :
    retryLoop "a.db" (fun _ => Attempt.failure "not open") 3 0 St.init =
      retryLoop "a.db" (fun _ => Attempt.failure "not open") 2 1
        (stepDelay (closeConnection
          (execAttempt "a.db" ((fun _ => Attempt.failure "not open") 0) St.init).2
          (BaseState.Path ["a.db"])))
    ∧ isConnectionOpen
        (execAttempt "a.db" ((fun _ => Attempt.failure "bad input") 0) St.init).2
        (BaseState.Path ["a.db"]) = true :=
  ⟨((retry_boundary_spec "a.db" (fun _ => Attempt.failure "not open") 2 0 St.init
      "not open" rfl).1 (by decide) (by decide)).1,
    ((retry_boundary_spec "a.db" (fun _ => Attempt.failure "bad input") 0 0 St.init
      "bad input" rfl).2.2 (by decide)).2⟩

/-- C4: with budget 3 and marker-matching failures on attempts 1-3, the
call ends with the terminal (ConnectionExhausted) error whose message
wraps the last failure's message, and exactly 3 attempts are made (no
4th); with budget 4 and the same failures followed by success on attempt
4, the call returns the operation's resolved value after exactly 4
attempts. -/
theorem retry_budget_spec (arq : String) (attempts : Nat → Attempt)
    (m1 m2 m3 : String) (v : Nat) (st : St)
    (h0 : attempts 0 = .failure m1) (h1 : attempts 1 = .failure m2)
    (h2 : attempts 2 = .failure m3) (h3 : attempts 3 = .success v)
    (t1 : retryClassifier m1 = true) (t2 : retryClassifier m2 = true)
    (t3 : retryClassifier m3 = true) :
    (retryLoop arq attempts 3 0 st).1 = .exhausted (terminalMsg m3)
    ∧ (retryLoop arq attempts 3 0 st).2.2 = 3
    ∧ (retryLoop arq attempts 4 0 st).1 = .ok v
    ∧ (retryLoop arq attempts 4 0 st).2.2 = 4
    ∧ terminalMsg m3 = "Database connection failed after 3 retries: " ++ m3 := by
  have k1 : ∀ s, (retryLoop arq attempts 1 2 s).1 = .exhausted (terminalMsg m3)
      ∧ (retryLoop arq attempts 1 2 s).2.2 = 3 := by
    intro s
    have e : retryLoop arq attempts 1 2 s =
        (.exhausted (terminalMsg m3),
          closeConnection (execAttempt arq (attempts 2) s).2 (BaseState.Path [arq]), 3) :=
      retryLoop_fail_exhaust arq attempts 2 s m3 h2 t3
    rw [e]
    exact ⟨rfl, rfl⟩
  have k2 : ∀ s, (retryLoop arq attempts 2 1 s).1 = .exhausted (terminalMsg m3)
      ∧ (retryLoop arq attempts 2 1 s).2.2 = 3 := by
    intro s
    have e : retryLoop arq attempts 2 1 s = retryLoop arq attempts 1 2
        (stepDelay (closeConnection (execAttempt arq (attempts 1) s).2
          (BaseState.Path [arq]))) :=
      retryLoop_fail_step arq attempts 1 1 s m2 h1 t2 (by omega)
    rw [e]
    exact k1 _
  have k3 : (retryLoop arq attempts 3 0 st).1 = .exhausted (terminalMsg m3)
      ∧ (retryLoop arq attempts 3 0 st).2.2 = 3 := by
    have e : retryLoop arq attempts 3 0 st = retryLoop arq attempts 2 1
        (stepDelay (closeConnection (execAttempt arq (attempts 0) st).2
          (BaseState.Path [arq]))) :=
      retryLoop_fail_step arq attempts 2 0 st m1 h0 t1 (by omega)
    rw [e]
    exact k2 _
  have j1 : ∀ s, (retryLoop arq attempts 1 3 s).1 = .ok v
      ∧ (retryLoop arq attempts 1 3 s).2.2 = 4 := by
    intro s
    have e : retryLoop arq attempts 1 3 s =
        (.ok v, (execAttempt arq (attempts 3) s).2, 4) :=
      retryLoop_success arq attempts 0 3 s v h3
    rw [e]
    exact ⟨rfl, rfl⟩
  have j2 : ∀ s, (retryLoop arq attempts 2 2 s).1 = .ok v
      ∧ (retryLoop arq attempts 2 2 s).2.2 = 4 := by
    intro s
    have e : retryLoop arq attempts 2 2 s = retryLoop arq attempts 1 3
        (stepDelay (closeConnection (execAttempt arq (attempts 2) s).2
          (BaseState.Path [arq]))) :=
      retryLoop_fail_step arq attempts 1 2 s m3 h2 t3 (by omega)
    rw [e]
    exact j1 _
  have j3 : ∀ s, (retryLoop arq attempts 3 1 s).1 = .ok v
      ∧ (retryLoop arq attempts 3 1 s).2.2 = 4 := by
    intro s
    have e : retryLoop arq attempts 3 1 s = retryLoop arq attempts 2 2
        (stepDelay (closeConnection (execAttempt arq (attempts 1) s).2
          (BaseState.Path [arq]))) :=
      retryLoop_fail_step arq attempts 2 1 s m2 h1 t2 (by omega)
    rw [e]
    exact j2 _
  have j4 : (retryLoop arq attempts 4 0 st).1 = .ok v
      ∧ (retryLoop arq attempts 4 0 st).2.2 = 4 := by
    have e : retryLoop arq attempts 4 0 st = retryLoop arq attempts 3 1
        (stepDelay (closeConnection (execAttempt arq (attempts 0) st).2
          (BaseState.Path [arq]))) :=
      retryLoop_fail_step arq attempts 3 0 st m1 h0 t1 (by omega)
    rw [e]
    exact j3 _
  exact ⟨k3.1, k3.2, j4.1, j4.2, rfl⟩

/-- Witness for C4's theorem at a concrete scenario. -/
theorem retry_budget_spec_witness :
    (retryLoop "a.db"
      (fun i => if i < 3 then Attempt.failure "SQLITE_MISUSE" else Attempt.success 7)
      3 0 St.init).1 = .exhausted (terminalMsg "SQLITE_MISUSE")
    ∧ (retryLoop "a.db"
      (fun i => if i < 3 then Attempt.failure "SQLITE_MISUSE" else Attempt.success 7)
      4 0 St.init).1 = .ok 7 := by
  have h := retry_budget_spec "a.db"
    (fun i => if i < 3 then Attempt.failure "SQLITE_MISUSE" else Attempt.success 7)
    "SQLITE_MISUSE" "SQLITE_MISUSE" "SQLITE_MISUSE" 7 St.init
    (by decide) (by decide) (by decide) (by decide)
    (by decide) (by decide) (by decide)
  exact ⟨h.1, h.2.2.1⟩

/-- C5: eviction (`closeConnection`) is idempotent — a second call with
no intervening acquire leaves the whole state, hence the registry,
unchanged; on an open record it cancels the idle timer, removes the id
from the mapping synchronously while the close is still only *pending*
(a later lookup observes "not present"), and an error reported by the
asynchronous close is only logged, never raised: its completion leaves
the registry untouched and appends a log record. -/
theorem closeConnection_spec (st : St) (arq : String) :
    closeConnection (closeConnection st arq) arq = closeConnection st arq
    ∧ (∀ conn, lookupConn st.connections arq = some conn → conn.openFlag = true →
        (∀ tm ∈ (closeConnection st arq).activeTimers, tm.id ≠ conn.timeout)
        ∧ lookupConn (closeConnection st arq).connections arq = none
        ∧ arq ∈ (closeConnection st arq).pendingCloses)
    ∧ (∀ e, (closeCompleted (some e) arq st).connections = st.connections
        ∧ (closeCompleted (some e) arq st).logs =
            st.logs ++ ["Failed to close database: " ++ arq ++ ". "]) := by
  refine ⟨closeConnection_not_found _ _ (lookup_closeConnection_self st arq),
    ?_, fun e => ⟨rfl, rfl⟩⟩
  intro conn hconn ho
  refine ⟨?_, lookup_closeConnection_self st arq, ?_⟩
  · intro tm htm
    simp only [closeConnection, hconn] at htm
    rcases List.mem_filter.mp htm with ⟨_, hp⟩
    simpa using hp
  · simp [closeConnection, hconn, ho]

/-- Witness for C5's theorem on a concrete open record. -/
theorem closeConnection_spec_witness :
    lookupConn (closeConnection stW "K:/Data/0.0/a.db").connections
      "K:/Data/0.0/a.db" = none
    ∧ "K:/Data/0.0/a.db" ∈ (closeConnection stW "K:/Data/0.0/a.db").pendingCloses := by
  have h := (closeConnection_spec stW "K:/Data/0.0/a.db").2.1
    ⟨0, 0, 7, true⟩ (by decide) (by decide)
  exact ⟨h.2.1, h.2.2⟩

/-- C6: a second acquire on an existing open record cancels the existing
idle timer, sets `lastUsed` to the current time, schedules a fresh idle
timer of duration `db_pool_timeout` (default 30000ms), keeps the open
flag true, and returns the same handle as the first acquire. -/
theorem getConnection_hit_spec (e : Option String) (st : St) (arq : String)
    (conn : Conn)
    (hconn : lookupConn st.connections arq = some conn)
    (ho : conn.openFlag = true)
    (ht : conn.timeout < st.nextTimer) :
    (getConnection e st arq).1 = some conn.db
    ∧ (∀ tm ∈ (getConnection e st arq).2.activeTimers, tm.id ≠ conn.timeout)
    ∧ (∃ c, lookupConn ((getConnection e st arq).2).connections arq = some c
        ∧ c.lastUsed = st.now ∧ c.timeout = st.nextTimer ∧ c.openFlag = true)
    ∧ Timer.mk st.nextTimer (st.now + dbPoolTimeout) ∈
        (getConnection e st arq).2.activeTimers
    ∧ dbPoolTimeout = 30000 := by
  refine ⟨?_, ?_, ?_, ?_, rfl⟩
  · simp [getConnection, hconn, ho]
  · intro tm htm
    simp only [getConnection, hconn, ho, if_true] at htm
    rcases List.mem_cons.mp htm with h | h
    · rw [h]
      exact (Nat.ne_of_lt ht).symm
    · rcases List.mem_filter.mp h with ⟨_, hp⟩
      simpa using hp
  · simp only [getConnection, hconn, ho, if_true]
    exact ⟨_, lookup_set_self .., rfl, rfl, by simp⟩
  · simp [getConnection, hconn, ho]

/-- Witness for C6's theorem on a concrete open record. -/
theorem getConnection_hit_spec_witness :
    (getConnection none stW "K:/Data/0.0/a.db").1 = some 0
    ∧ dbPoolTimeout = 30000 := by
  have h := getConnection_hit_spec none stW "K:/Data/0.0/a.db"
    ⟨0, 0, 7, true⟩ (by decide) (by decide) (by decide)
  exact ⟨h.1, h.2.2.2.2⟩

/-- C7: for a resource id that is never acquired along a run of registry
events, `isConnectionOpen` is false and the id does not appear as a key
of the `getStatus` snapshot. -/
theorem never_acquired_spec (cmds : List Cmd) (arq : String)
    (h : cmds.all (fun c => !(acquiresId arq c)) = true) :
    isConnectionOpen (runCmds cmds) arq = false
    ∧ ∀ p ∈ getStatus (runCmds cmds), p.1 ≠ arq := by
  have h' : ∀ c ∈ cmds, acquiresId arq c = false := by
    intro c hc
    simpa using List.all_eq_true.mp h c hc
  have habs : lookupConn (runCmds cmds).connections arq = none :=
    foldl_absent cmds arq St.init h' rfl
  constructor
  · simp [isConnectionOpen, habs]
  · intro p hp
    rcases List.mem_map.mp hp with ⟨q, hq, hpq⟩
    have hne := keys_absent_of_lookup _ _ habs q hq
    rw [← hpq]
    exact hne

/-- Witness for C7's theorem on a concrete event trace. -/
theorem never_acquired_spec_witness :
    isConnectionOpen
      (runCmds [Cmd.getConn none "b", Cmd.closeConn "a", Cmd.shutdownCmd]) "c" = false :=
  (never_acquired_spec [Cmd.getConn none "b", Cmd.closeConn "a", Cmd.shutdownCmd]
    "c" (by decide)).1

/-- C8: after `shutdown` the `getStatus` snapshot is empty and
`isConnectionOpen` is false for every id. -/
theorem shutdown_spec (st : St) :
    getStatus (shutdown st) = []
    ∧ ∀ arq, isConnectionOpen (shutdown st) arq = false :=
  ⟨rfl, fun _ => rfl⟩

/-- C9: `getConnection` never returns a falsy handle — for every state,
key and open outcome it returns a handle and leaves a record with the
open flag true in the mapping, even when the asynchronous open fails (its
callback only logs); consequently the guard in `executeCall` that throws
"Failed to obtain database connection" is unreachable: the acquisition
step always succeeds. -/
theorem getConnection_total_spec (e : Option String) (st : St) (k : String) :
    (∃ d, (getConnection e st k).1 = some d)
    ∧ (∃ c, lookupConn ((getConnection e st k).2).connections k = some c
        ∧ c.openFlag = true)
    ∧ ∀ arq, ∃ d st', acquireStep e st arq = .ok (d, st') := by
  refine ⟨getConnection_fst e st k, getConnection_lookup e st k, fun arq => ?_⟩
  obtain ⟨d, hd⟩ := getConnection_fst e st (BaseState.Path [arq])
  refine ⟨d, (getConnection e st (BaseState.Path [arq])).2, ?_⟩
  simp [acquireStep, hd]

/-- C10: registry entries created through the data layer are keyed by the
resolved path, which differs from any bare file name; eviction with a
bare name — as performed inside the per-statement error callback — is a
no-op on such a registry (the whole state is unchanged), and after a
marker-matching statement failure the resource's record is still open
under its resolved key; only eviction with the resolved path — as
performed by the retry loop — removes the record. -/
theorem bare_name_eviction_spec (st : St) (arq msg : String)
    (hkeys : ∀ p ∈ st.connections, startsWithStr p.1 "K:/Data/0.0/" = true)
    (hbare : startsWithStr arq "K:/Data/0.0/" = false) :
    BaseState.Path [arq] ≠ arq
    ∧ closeConnection st arq = st
    ∧ (callbackClassifier msg = true →
        isConnectionOpen (execAttempt arq (.failure msg) st).2
          (BaseState.Path [arq]) = true)
    ∧ lookupConn (closeConnection st (BaseState.Path [arq])).connections
        (BaseState.Path [arq]) = none := by
  have habs : lookupConn st.connections arq = none := by
    apply lookup_absent_of_keys
    intro p hp heq
    have h1 := hkeys p hp
    rw [heq, hbare] at h1
    simp at h1
  refine ⟨?_, closeConnection_not_found st arq habs, ?_,
    lookup_closeConnection_self ..⟩
  · intro heq
    have h1 := path_startsWith arq
    rw [heq, hbare] at h1
    simp at h1
  · intro hcb
    have habs2 : lookupConn
        ((getConnection none st (BaseState.Path [arq])).2).connections arq = none := by
      apply lookup_absent_of_keys
      intro p hp heq
      rcases getConnection_keys none st (BaseState.Path [arq]) p hp with h | h
      · have hpa : BaseState.Path [arq] = arq := by rw [← h, heq]
        have h1 := path_startsWith arq
        rw [hpa, hbare] at h1
        simp at h1
      · have h1 := hkeys p h
        rw [heq, hbare] at h1
        simp at h1
    have hcc : closeConnection ((getConnection none st (BaseState.Path [arq])).2) arq =
        (getConnection none st (BaseState.Path [arq])).2 :=
      closeConnection_not_found _ _ habs2
    obtain ⟨c, hc, hoc⟩ := getConnection_lookup none st (BaseState.Path [arq])
    unfold isConnectionOpen
    rw [execAttempt_connections_marked arq msg st hcb, hcc, hc]
    exact hoc

/-- Witness for C10's theorem on a concrete registry keyed by a resolved
path. -/
theorem bare_name_eviction_spec_witness :
    closeConnection stW "a.db" = stW
    ∧ lookupConn (closeConnection stW (BaseState.Path ["a.db"])).connections
        (BaseState.Path ["a.db"]) = none := by
  have h := bare_name_eviction_spec stW "a.db" "SQLITE_MISUSE"
    (by decide) (by decide)
  exact ⟨h.2.1, h.2.2.2⟩
